import Mathlib

/-! Shortlink service (`shortlink.go`).

A shallow embedding of the link handlers of the link shortener (`GetUser`,
`GetLinkRedirect`, `GetLink`, `PutLink`, `DeleteLink`, `GetAllLinks`, `AddLink`)
and of the slice of the App Engine libraries they call.  The handlers are pure functions
from an environment (what the external collaborators answer during one
request), a request and a datastore state to a response and the next datastore
state.

External collaborators and how they appear here:

* `appengine/user`      : `Env.currentUser` is what `user.Current(ctx)` answers;
* `appengine/datastore` : entities live in a `Datastore`, an ordered list of
  `(key, record)` pairs in the default query order; `Env.encode` and
  `Env.decodeKey` stand for `(*Key).Encode` and `datastore.DecodeKey`;
  `Env.putErr`, `Env.getErr`, `Env.deleteErr` and `Env.queryFailAt` inject the
  transient service failures a call may meet; queries are read consistently;
  a `time.Time` property is kept in whole microseconds;
* `encoding/json`       : a request body is either malformed or a JSON object
  that names some of the five `Link` fields (`Patch`); decoding into a struct
  overwrites exactly the fields the object names;
* `net/http`            : `Env.redirectURL` is the URL `http.Redirect` computes
  from the request path and the URL it is given (a URL without scheme and host
  is made absolute against the request path and cleaned, other URLs pass);
  a response records the status, the headers `X-Key` and `Location`, and the
  body;
* `time`, `uniuri`      : `Env.now` and `Env.token` are what `time.Now()` and
  `uniuri.New()` answer.
-/

namespace Shortlink

/-! ## Data model -/

/-- Instants of `time.Time`, counted in nanoseconds from the zero value
`time.Time{}` (0001-01-01T00:00:00Z); `0` is the zero value. -/
abbrev Time := Nat

/-- The `Link` struct. -/
structure Link where
  Key : String
  Author : String
  Slug : String
  Target : String
  Date : Time
  deriving DecidableEq, Repr

/-- The zero value `Link{}`. -/
def Link.zero : Link := { Key := "", Author := "", Slug := "", Target := "", Date := 0 }

/-- The package variable `DOMAIN`. -/
def DOMAIN : String := "example.com"

/-! ## Library: strings -/

namespace strings

/-- Go `strings.HasSuffix`. -/
def HasSuffix (s suffix : String) : Bool :=
  suffix.data.isSuffixOf s.data

/-- Go `strings.HasPrefix`. -/
def HasPrefix (s pre : String) : Bool :=
  pre.data.isPrefixOf s.data

end strings

/-! ## Library: appengine/user -/

/-- The struct `user.User`. -/
structure User where
  Email : String
  AuthDomain : String
  Admin : Bool
  ID : String
  deriving DecidableEq, Repr

/-! ## Library: appengine/datastore -/

/-- A `datastore.Key` without parent: entity kind, string id and integer id.
A key whose two ids are both zero values is incomplete. -/
structure DKey where
  kind : String
  stringID : String
  intID : Nat
  deriving DecidableEq, Repr

/-- The method `(*Key).Incomplete`. -/
def DKey.Incomplete (k : DKey) : Bool :=
  k.stringID == "" && k.intID == 0

/-- The method `(*Key).valid` on a key without parent: the kind is not empty
and at most one of the two ids is set. -/
def DKey.valid (k : DKey) : Bool :=
  !(k.kind == "") && !(!(k.stringID == "") && !(k.intID == 0))

/-- The function `datastore.NewIncompleteKey(ctx, kind, nil)`. -/
def NewIncompleteKey (kind : String) : DKey :=
  { kind := kind, stringID := "", intID := 0 }

/-- Errors of datastore calls that the handlers tell apart. -/
inductive DsError where
  | ErrNoSuchEntity
  | ErrInvalidKey
  | other (msg : String)
  deriving DecidableEq, Repr

/-- The method `Error()` of a datastore error. -/
def DsError.Error : DsError → String
  | .ErrNoSuchEntity => "datastore: no such entity"
  | .ErrInvalidKey => "datastore: invalid key"
  | .other msg => msg

/-- Datastore contents: the entities in default query order. -/
abbrev Datastore := List (DKey × Link)

/-- A JSON object read as a `Link`: the fields the object names. -/
structure Patch where
  key : Option String
  author : Option String
  slug : Option String
  target : Option String
  date : Option Time
  deriving DecidableEq, Repr

/-- A request body as `json.Decoder.Decode` sees it. -/
inductive Body where
  | malformed (err : String)
  | object (p : Patch)
  deriving DecidableEq, Repr

/-- What the collaborators answer during one request. -/
structure Env where
  currentUser : Option User
  now : Time
  token : String
  encode : DKey → String
  decodeKey : String → Except String DKey
  putErr : Option String
  getErr : Option String
  deleteErr : Option String
  queryFailAt : Option Nat
  redirectURL : String → String → String

/-- The record stored under `key`, if any. -/
def Datastore.lookup (store : Datastore) (key : DKey) : Option Link :=
  (store.find? (fun e => e.1 == key)).map Prod.snd

/-- Replace the record under `key` in place, or append it when the key is new. -/
def Datastore.upsert : Datastore → DKey → Link → Datastore
  | [], key, l => [(key, l)]
  | (k, v) :: rest, key, l =>
    if k == key then (key, l) :: rest else (k, v) :: Datastore.upsert rest key l

/-- An integer id no entity of the store uses. -/
def Datastore.freshID (store : Datastore) : Nat :=
  (store.map (fun e => e.1.intID)).foldr max 0 + 1

namespace datastore

/-- The instant the datastore keeps for a `time.Time` property: whole
microseconds, the nanoseconds below them dropped. -/
def truncateTime (t : Time) : Time :=
  t / 1000 * 1000

/-- The entity the datastore saves for a `Link`: the five fields as
properties, the `Date` in whole microseconds. -/
def saveStruct (l : Link) : Link :=
  { l with Date := truncateTime l.Date }

/-- The call `datastore.Put(ctx, key, &l)`: a complete key is written to as it
is; for an incomplete key the datastore generates a new complete key.  Returns
the key of the written entity and the next store. -/
def Put (env : Env) (store : Datastore) (key : DKey) (l : Link) :
    Except DsError (DKey × Datastore) :=
  if !key.valid then .error .ErrInvalidKey
  else match env.putErr with
    | some msg => .error (.other msg)
    | none =>
      let key1 := if key.Incomplete then { key with intID := store.freshID } else key
      .ok (key1, store.upsert key1 (saveStruct l))

/-- The call `datastore.Get(ctx, key, &l)`. -/
def Get (env : Env) (store : Datastore) (key : DKey) : Except DsError Link :=
  if !key.valid then .error .ErrInvalidKey
  else match env.getErr with
    | some msg => .error (.other msg)
    | none =>
      if key.Incomplete then .error (.other "datastore: incomplete key")
      else match store.lookup key with
        | some l => .ok l
        | none => .error .ErrNoSuchEntity

/-- The call `datastore.Delete(ctx, key)`; deleting an absent entity succeeds. -/
def Delete (env : Env) (store : Datastore) (key : DKey) : Except DsError Datastore :=
  if !key.valid then .error .ErrInvalidKey
  else match env.deleteErr with
    | some msg => .error (.other msg)
    | none =>
      if key.Incomplete then .error (.other "datastore: incomplete key")
      else .ok (store.filter (fun e => !(e.1 == key)))

/-- A query `datastore.NewQuery(kind)` with optional `Filter("Slug =", v)`. -/
structure Query where
  kind : String
  slugEq : Option String

/-- The entities a query matches, in default order. -/
def Query.matches (q : Query) (store : Datastore) : Datastore :=
  store.filter (fun e =>
    e.1.kind == q.kind &&
    (match q.slugEq with
     | none => true
     | some s => e.2.Slug == s))

/-- An iterator: the outcomes of its successive `Next` calls before `Done`. -/
abbrev Iterator := List (Except DsError (DKey × Link))

/-- The call `q.Run(ctx)`: the matching entities, cut short by an error at
position `n` when the service fails there. -/
def Run (env : Env) (q : Query) (store : Datastore) : Iterator :=
  let ms := q.matches store
  match env.queryFailAt with
  | none => ms.map .ok
  | some n =>
    if n ≤ ms.length then (ms.take n).map .ok ++ [.error (.other "datastore: query failed")]
    else ms.map .ok

end datastore

/-! ## Library: net/http and encoding/json -/

/-- What a handler wrote as response body: nothing, a plain message, the JSON
of a link or of a list of links, or the HTML note of `http.Redirect`, an
anchor to `href` labelled `label`. -/
inductive RespBody where
  | empty
  | text (msg : String)
  | link (l : Link)
  | links (ls : List Link)
  | anchor (href label : String)
  deriving DecidableEq, Repr

/-- The response a handler produced: status line, the headers `X-Key` and
`Location` when set, and the body. -/
structure Response where
  status : Nat
  header : List (String × String)
  body : RespBody
  deriving DecidableEq, Repr

/-- The call `Header().Get(name)` on a response. -/
def Response.headerGet (resp : Response) (name : String) : Option String :=
  (resp.header.find? (fun h => h.1 == name)).map Prod.snd

/-- The request data the handlers read: `r.Method`, `r.URL.Path`,
`c.URLParams[name]`, `r.FormValue(name)`, `r.Header.Get(name)` and `r.Body`. -/
structure Request where
  Method : String
  URLPath : String
  URLParams : String → String
  FormValue : String → String
  Header : String → String
  Body : Body

def StatusOK : Nat := 200
def StatusNoContent : Nat := 204
def StatusFound : Nat := 302
def StatusBadRequest : Nat := 400
def StatusUnauthorized : Nat := 401
def StatusNotFound : Nat := 404
def StatusInternalServerError : Nat := 500

/-- The call `http.Error(w, msg, code)`. -/
def httpError (msg : String) (code : Nat) : Response :=
  { status := code, header := [], body := .text msg }

/-- The function `http.StatusText` on the status codes the handlers use. -/
def StatusText (code : Nat) : String :=
  if code == 200 then "OK"
  else if code == 204 then "No Content"
  else if code == 302 then "Found"
  else if code == 400 then "Bad Request"
  else if code == 401 then "Unauthorized"
  else if code == 404 then "Not Found"
  else if code == 500 then "Internal Server Error"
  else ""

/-- The call `http.Redirect(w, r, url, code)` on a response whose headers so
far are `header`: the `Location` header is the URL the library computes from
the request path and `url`, and a `GET` request gets the HTML note, an anchor
to that URL labelled with the status text. -/
def httpRedirect (env : Env) (r : Request) (header : List (String × String)) (url : String)
    (code : Nat) : Response :=
  { status := code
    header := header ++ [("Location", env.redirectURL r.URLPath url)]
    body := if r.Method == "GET" then
              .anchor (env.redirectURL r.URLPath url) (StatusText code)
            else .empty }

/-- The call `json.NewEncoder(w).Encode(v)` on a fresh response writer. -/
def jsonEncode (v : RespBody) : Response :=
  { status := StatusOK, header := [], body := v }

/-- The call `json.NewDecoder(r.Body).Decode(&l)`: the fields the JSON object
names overwrite those of `l`, the others keep their value. -/
def jsonDecode (b : Body) (l : Link) : Except String Link :=
  match b with
  | .malformed err => .error err
  | .object p =>
    .ok { Key := p.key.getD l.Key
          Author := p.author.getD l.Author
          Slug := p.slug.getD l.Slug
          Target := p.target.getD l.Target
          Date := p.date.getD l.Date }

/-- The message of `datastore.Done`. -/
def doneMessage : String := "datastore: query has no more results"

/-! ## The handlers -/

/-- Source `GetUser`. -/
def GetUser (env : Env) : Option User :=
  match env.currentUser with
  | none => none
  | some user =>
    if !strings.HasSuffix user.Email ("@" ++ DOMAIN) then none
    else some user

/-- Source `GetLinkRedirect`. -/
def GetLinkRedirect (env : Env) (r : Request) (store : Datastore) : Response × Datastore :=
  let q : datastore.Query := { kind := "Link", slugEq := some (r.URLParams "slug") }
  match datastore.Run env q store with
  | [] => (httpError doneMessage StatusNotFound, store)
  | .error err :: _ => (httpError err.Error StatusInternalServerError, store)
  | .ok (key, link) :: _ =>
    (httpRedirect env r [("X-Key", env.encode key)] link.Target StatusFound, store)

/-- Source `GetLink`. -/
def GetLink (env : Env) (r : Request) (store : Datastore) : Response × Datastore :=
  match env.decodeKey (r.URLParams "key") with
  | .error err => (httpError err StatusBadRequest, store)
  | .ok key =>
    match datastore.Get env store key with
    | .error .ErrNoSuchEntity =>
      (httpError DsError.ErrNoSuchEntity.Error StatusNotFound, store)
    | .error err => (httpError err.Error StatusInternalServerError, store)
    | .ok l => (jsonEncode (.link { l with Key := env.encode key }), store)

/-- Source `PutLink`. -/
def PutLink (env : Env) (r : Request) (store : Datastore) : Response × Datastore :=
  match GetUser env with
  | none => (httpError "Unauthorized" StatusUnauthorized, store)
  | some _ =>
    match jsonDecode r.Body Link.zero with
    | .error err => (httpError err StatusBadRequest, store)
    | .ok l =>
      match env.decodeKey (r.URLParams "key") with
      | .error err => (httpError err StatusBadRequest, store)
      | .ok key =>
        let l := { l with Key := "" }
        match datastore.Put env store key l with
        | .error err => (httpError err.Error StatusInternalServerError, store)
        | .ok (_, store1) =>
          ({ status := StatusNoContent, header := [], body := .empty }, store1)

/-- Source `DeleteLink`. -/
def DeleteLink (env : Env) (r : Request) (store : Datastore) : Response × Datastore :=
  match GetUser env with
  | none => (httpError "Unauthorized" StatusUnauthorized, store)
  | some _ =>
    match env.decodeKey (r.URLParams "key") with
    | .error err => (httpError err StatusBadRequest, store)
    | .ok key =>
      match datastore.Delete env store key with
      | .error err => (httpError err.Error StatusInternalServerError, store)
      | .ok store1 =>
        ({ status := StatusNoContent, header := [], body := .empty }, store1)

/-- The `for` loop of `GetAllLinks`: consume the iterator, appending every
record with its encoded key, until `Done`; stop at the first error. -/
def GetAllLinks.loop (env : Env) : datastore.Iterator → List Link → Except DsError (List Link)
  | [], links => .ok links
  | .error err :: _, _ => .error err
  | .ok (key, link) :: rest, links =>
    GetAllLinks.loop env rest (links ++ [{ link with Key := env.encode key }])

/-- Source `GetAllLinks`. -/
def GetAllLinks (env : Env) (_r : Request) (store : Datastore) : Response × Datastore :=
  match GetUser env with
  | none => (httpError "Unauthorized" StatusUnauthorized, store)
  | some _ =>
    let iterator := datastore.Run env { kind := "Link", slugEq := none } store
    match GetAllLinks.loop env iterator [] with
    | .error err => (httpError err.Error StatusInternalServerError, store)
    | .ok links => (jsonEncode (.links links), store)

/-- Lines 165 to 176 of `AddLink`: the link built from the form values, the
clock and the caller, then overwritten by the JSON body when the request
declares a JSON content type. -/
def AddLink.payload (env : Env) (r : Request) (remoteUser : User) : Except String Link :=
  let l : Link :=
    { Key := ""
      Slug := r.FormValue "slug"
      Target := r.FormValue "target"
      Date := env.now
      Author := remoteUser.Email }
  if strings.HasPrefix (r.Header "Content-type") "application/json" then
    jsonDecode r.Body l
  else .ok l

/-- Source `AddLink`. -/
def AddLink (env : Env) (r : Request) (store : Datastore) : Response × Datastore :=
  match GetUser env with
  | none => (httpError "Unauthorized" StatusUnauthorized, store)
  | some remoteUser =>
    match AddLink.payload env r remoteUser with
    | .error err => (httpError err StatusBadRequest, store)
    | .ok l =>
      let l := if l.Slug == "" then { l with Slug := env.token } else l
      let key := NewIncompleteKey "Link"
      match datastore.Put env store key l with
      | .error err => (httpError err.Error StatusInternalServerError, store)
      | .ok (_, store1) =>
        (jsonEncode (.link { l with Key := env.encode key }), store1)

/-! ## Sample collaborators, used to evaluate the handlers on concrete inputs -/

/-- A key codec on four strings: `"k0"` is the incomplete `Link` key, `"k1"`
and `"k2"` are the `Link` keys with integer ids 1 and 2, and `"n1"` is the key
of kind `Note` with integer id 1. -/
def sampleEncode (k : DKey) : String :=
  if k.intID == 0 then "k0" else if k.intID == 1 then "k1" else "k2"

def sampleDecodeKey (s : String) : Except String DKey :=
  if s == "k0" then .ok (NewIncompleteKey "Link")
  else if s == "k1" then .ok { kind := "Link", stringID := "", intID := 1 }
  else if s == "k2" then .ok { kind := "Link", stringID := "", intID := 2 }
  else if s == "n1" then .ok { kind := "Note", stringID := "", intID := 1 }
  else .error "illegal base64 data"

def alice : User :=
  { Email := "alice@example.com", AuthDomain := "gmail.com", Admin := false, ID := "1" }

def mallory : User :=
  { Email := "a@notexample.com", AuthDomain := "gmail.com", Admin := false, ID := "2" }

/-- What `http.Redirect` computes for the targets of the examples below, on a
request path directly under the root: the empty target gives "/", the relative
target "docs/page" gives "/docs/page", and the absolute URLs pass. -/
def sampleRedirectURL (_oldpath url : String) : String :=
  if url == "" then "/" else if url == "docs/page" then "/docs/page" else url

/-- A healthy environment seen by caller `u`. -/
def sampleEnv (u : Option User) : Env :=
  { currentUser := u
    now := 1000
    token := "Xy7Qw2"
    encode := sampleEncode
    decodeKey := sampleDecodeKey
    putErr := none
    getErr := none
    deleteErr := none
    queryFailAt := none
    redirectURL := sampleRedirectURL }

/-- A `GET` request with the given key parameter, slug parameter and body, no
form values and no headers. -/
def sampleRequest (key slug : String) (body : Body) : Request :=
  { Method := "GET"
    URLPath := if slug == "" then "/links/" ++ key else "/" ++ slug
    URLParams := fun n => if n == "key" then key else if n == "slug" then slug else ""
    FormValue := fun _ => ""
    Header := fun _ => ""
    Body := body }

/-- A form-encoded `POST /links/` with the given slug and target. -/
def formRequest (slug target : String) : Request :=
  { Method := "POST"
    URLPath := "/links/"
    URLParams := fun _ => ""
    FormValue := fun n => if n == "slug" then slug else if n == "target" then target else ""
    Header := fun n => if n == "Content-type" then "application/x-www-form-urlencoded" else ""
    Body := .malformed "EOF" }

/-- A JSON `POST /links/` with the given object as body. -/
def jsonRequest (p : Patch) : Request :=
  { Method := "POST"
    URLPath := "/links/"
    URLParams := fun _ => ""
    FormValue := fun _ => ""
    Header := fun n => if n == "Content-type" then "application/json" else ""
    Body := .object p }

/-- A store with one link under the key with integer id 1. -/
def sampleStore : Datastore :=
  [({ kind := "Link", stringID := "", intID := 1 },
    { Key := "", Author := "alice@example.com", Slug := "go", Target := "https://go.example/",
      Date := 7 })]

/-- A JSON object naming slug and target only. -/
def samplePatch : Patch :=
  { key := none, author := none, slug := some "docs", target := some "https://docs.example/",
    date := none }

/-- Two links that share the slug "dup". -/
def dupStore : Datastore :=
  [({ kind := "Link", stringID := "", intID := 1 },
    { Key := "", Author := "alice@example.com", Slug := "dup", Target := "https://first.example/",
      Date := 7 }),
   ({ kind := "Link", stringID := "", intID := 2 },
    { Key := "", Author := "alice@example.com", Slug := "dup", Target := "https://second.example/",
      Date := 8 })]

/-- A store that already holds a link under the slug the generator returns. -/
def collideStore : Datastore :=
  [({ kind := "Link", stringID := "", intID := 1 },
    { Key := "", Author := "bob@example.com", Slug := "Xy7Qw2", Target := "https://old.example/",
      Date := 3 })]

/-- A JSON object that names an author and a date of its own; the date is
"0001-01-01T00:00:05Z". -/
def spoofPatch : Patch :=
  { key := none, author := some "ceo@example.com", slug := some "pay",
    target := some "https://pay.example/", date := some 5000000000 }

/-- A JSON object whose date, "0001-01-01T00:00:00.000001999Z", has digits
below the microsecond. -/
def nanoPatch : Patch :=
  { key := none, author := some "bob@example.com", slug := some "docs",
    target := some "https://docs.example/", date := some 1999 }

/-- A JSON object that names a key. -/
def keyedPatch : Patch :=
  { key := some "abc", author := none, slug := some "pay",
    target := some "https://pay.example/", date := none }

/-! ## Authorization -/

theorem GetUser_eq_none_iff (env : Env) :
    GetUser env = none ↔
      (env.currentUser = none ∨
        ∃ u, env.currentUser = some u ∧ strings.HasSuffix u.Email ("@" ++ DOMAIN) = false) := by
  unfold GetUser
  cases hc : env.currentUser with
  | none => simp
  | some u => cases hs : strings.HasSuffix u.Email ("@" ++ DOMAIN) <;> simp [hs]

theorem GetUser_eq_some_iff (env : Env) (u : User) :
    GetUser env = some u ↔
      (env.currentUser = some u ∧ strings.HasSuffix u.Email ("@" ++ DOMAIN) = true) := by
  unfold GetUser
  cases hc : env.currentUser with
  | none => simp
  | some v =>
    constructor
    · intro h
      cases hs : strings.HasSuffix v.Email ("@" ++ DOMAIN)
      · simp [hs] at h
      · simp [hs] at h
        subst h
        exact ⟨rfl, hs⟩
    · rintro ⟨h1, h2⟩
      cases h1
      simp [h2]

/-- C1: a caller without identity, or whose email does not end with "@" followed
by DOMAIN, gets status 401 from GetAllLinks, AddLink, PutLink and DeleteLink,
whatever the request and the store, and the store after the call is the store
before it. -/
theorem unauthorized_rejected (env : Env) (r : Request) (store : Datastore)
    (h : env.currentUser = none ∨
      ∃ u, env.currentUser = some u ∧ strings.HasSuffix u.Email ("@" ++ DOMAIN) = false) :
    ((GetAllLinks env r store).1.status = 401 ∧ (GetAllLinks env r store).2 = store) ∧
    ((AddLink env r store).1.status = 401 ∧ (AddLink env r store).2 = store) ∧
    ((PutLink env r store).1.status = 401 ∧ (PutLink env r store).2 = store) ∧
    ((DeleteLink env r store).1.status = 401 ∧ (DeleteLink env r store).2 = store) := by
  have hu : GetUser env = none := (GetUser_eq_none_iff env).2 h
  simp [GetAllLinks, AddLink, PutLink, DeleteLink, hu, httpError, StatusUnauthorized]

theorem unauthorized_rejected_witness :
    ((sampleEnv (some mallory)).currentUser = none ∨
      ∃ u, (sampleEnv (some mallory)).currentUser = some u ∧
        strings.HasSuffix u.Email ("@" ++ DOMAIN) = false) ∧
    ((GetAllLinks (sampleEnv (some mallory)) (sampleRequest "k1" "" (.object samplePatch))
        sampleStore).1.status = 401 ∧
      (GetAllLinks (sampleEnv (some mallory)) (sampleRequest "k1" "" (.object samplePatch))
        sampleStore).2 = sampleStore) ∧
    ((AddLink (sampleEnv (some mallory)) (sampleRequest "k1" "" (.object samplePatch))
        sampleStore).1.status = 401 ∧
      (AddLink (sampleEnv (some mallory)) (sampleRequest "k1" "" (.object samplePatch))
        sampleStore).2 = sampleStore) ∧
    ((PutLink (sampleEnv (some mallory)) (sampleRequest "k1" "" (.object samplePatch))
        sampleStore).1.status = 401 ∧
      (PutLink (sampleEnv (some mallory)) (sampleRequest "k1" "" (.object samplePatch))
        sampleStore).2 = sampleStore) ∧
    ((DeleteLink (sampleEnv (some mallory)) (sampleRequest "k1" "" (.object samplePatch))
        sampleStore).1.status = 401 ∧
      (DeleteLink (sampleEnv (some mallory)) (sampleRequest "k1" "" (.object samplePatch))
        sampleStore).2 = sampleStore) :=
  ⟨Or.inr ⟨mallory, rfl, by decide⟩,
   unauthorized_rejected (sampleEnv (some mallory)) (sampleRequest "k1" "" (.object samplePatch))
     sampleStore (Or.inr ⟨mallory, rfl, by decide⟩)⟩

/-- C7: GetUser returns an identity exactly when the provider reports that
identity and its email ends with "@" followed by DOMAIN, and then it is the
identity of the provider unchanged; it returns nil exactly when there is no
identity or the email lacks that suffix, as for "a@notexample.com". -/
theorem GetUser_spec (env : Env) (u : User) :
    (GetUser env = some u ↔
      (env.currentUser = some u ∧ strings.HasSuffix u.Email ("@" ++ DOMAIN) = true)) ∧
    (GetUser env = none ↔
      (env.currentUser = none ∨
        ∃ v, env.currentUser = some v ∧ strings.HasSuffix v.Email ("@" ++ DOMAIN) = false)) ∧
    GetUser { env with currentUser := some { u with Email := "a@notexample.com" } } = none ∧
    GetUser { env with currentUser := some { u with Email := "a@example.com" } } =
      some { u with Email := "a@example.com" } := by
  refine ⟨GetUser_eq_some_iff env u, GetUser_eq_none_iff env, ?_, ?_⟩
  · rw [GetUser_eq_none_iff]
    refine Or.inr ⟨_, rfl, ?_⟩
    show strings.HasSuffix "a@notexample.com" ("@" ++ DOMAIN) = false
    decide
  · rw [GetUser_eq_some_iff]
    refine ⟨rfl, ?_⟩
    show strings.HasSuffix "a@example.com" ("@" ++ DOMAIN) = true
    decide

/-! ## Malformed keys -/

/-- C3, as stated, fails: for a caller without identity and a key string that
does not decode, PutLink and DeleteLink answer 401, not 400. -/
theorem bad_key_unauthorized_counterexample :
    (sampleEnv none).decodeKey
        ((sampleRequest "not-a-real-key" "" (.object samplePatch)).URLParams "key") =
      .error "illegal base64 data" ∧
    (PutLink (sampleEnv none) (sampleRequest "not-a-real-key" "" (.object samplePatch))
      sampleStore).1.status = 401 ∧
    (DeleteLink (sampleEnv none) (sampleRequest "not-a-real-key" "" (.object samplePatch))
      sampleStore).1.status = 401 :=
  ⟨rfl, rfl, rfl⟩

/-- C3, amended: when the key string does not decode, GetLink answers 400 for
every caller, and PutLink and DeleteLink answer 400 for every authorized caller
and 401 for every other caller, whatever the body and the store; so none of the
three answers 500 or 404. -/
theorem bad_key_status (env : Env) (r : Request) (store : Datastore) (err : String)
    (h : env.decodeKey (r.URLParams "key") = .error err) :
    (GetLink env r store).1.status = 400 ∧
    (PutLink env r store).1.status = (if (GetUser env).isSome then 400 else 401) ∧
    (DeleteLink env r store).1.status = (if (GetUser env).isSome then 400 else 401) := by
  refine ⟨?_, ?_, ?_⟩
  · simp [GetLink, h, httpError, StatusBadRequest]
  · unfold PutLink
    cases GetUser env with
    | none => simp [httpError, StatusUnauthorized]
    | some u =>
      cases jsonDecode r.Body Link.zero <;> simp [h, httpError, StatusBadRequest]
  · unfold DeleteLink
    cases GetUser env with
    | none => simp [httpError, StatusUnauthorized]
    | some u => simp [h, httpError, StatusBadRequest]

theorem bad_key_status_witness :
    (sampleEnv (some alice)).decodeKey
        ((sampleRequest "not-a-real-key" "" (.object samplePatch)).URLParams "key") =
      .error "illegal base64 data" ∧
    ((GetLink (sampleEnv (some alice)) (sampleRequest "not-a-real-key" "" (.object samplePatch))
        sampleStore).1.status = 400 ∧
     (PutLink (sampleEnv (some alice)) (sampleRequest "not-a-real-key" "" (.object samplePatch))
        sampleStore).1.status = (if (GetUser (sampleEnv (some alice))).isSome then 400 else 401) ∧
     (DeleteLink (sampleEnv (some alice)) (sampleRequest "not-a-real-key" "" (.object samplePatch))
        sampleStore).1.status =
          (if (GetUser (sampleEnv (some alice))).isSome then 400 else 401)) :=
  ⟨rfl, bad_key_status (sampleEnv (some alice))
    (sampleRequest "not-a-real-key" "" (.object samplePatch)) sampleStore "illegal base64 data" rfl⟩

/-! ## Queries -/

theorem filter_of_find_none {α : Type} (p : α → Bool) (l : List α) (h : l.find? p = none) :
    l.filter p = [] := by
  induction l with
  | nil => rfl
  | cons a l ih =>
    cases hp : p a
    · rw [List.find?_cons_of_neg _ (by simp [hp])] at h
      rw [List.filter_cons_of_neg (by simp [hp])]
      exact ih h
    · rw [List.find?_cons_of_pos _ hp] at h
      cases h

theorem filter_of_find_some {α : Type} (p : α → Bool) (l : List α) (a : α)
    (h : l.find? p = some a) : ∃ rest, l.filter p = a :: rest := by
  induction l with
  | nil => cases h
  | cons b l ih =>
    cases hp : p b
    · rw [List.find?_cons_of_neg _ (by simp [hp])] at h
      rw [List.filter_cons_of_neg (by simp [hp])]
      exact ih h
    · rw [List.find?_cons_of_pos _ hp] at h
      cases h
      exact ⟨l.filter p, List.filter_cons_of_pos hp⟩

/-- When the first `Next` does not fail, a run starts like the matching
entities do. -/
theorem Run_first (env : Env) (q : datastore.Query) (store : Datastore)
    (hq : env.queryFailAt ≠ some 0) :
    (q.matches store = [] ∧ datastore.Run env q store = []) ∨
    (∃ e rest rest1, q.matches store = e :: rest ∧ datastore.Run env q store = .ok e :: rest1) := by
  unfold datastore.Run
  cases hm : q.matches store with
  | nil =>
    left
    cases hf : env.queryFailAt with
    | none => simp
    | some n =>
      have : n ≠ 0 := fun h0 => hq (by rw [hf, h0])
      simp [this]
  | cons e rest =>
    right
    refine ⟨e, rest, ?_⟩
    cases hf : env.queryFailAt with
    | none => exact ⟨_, rfl, rfl⟩
    | some n =>
      have hn : n ≠ 0 := fun h0 => hq (by rw [hf, h0])
      obtain ⟨m, rfl⟩ := Nat.exists_eq_succ_of_ne_zero hn
      by_cases hle : m + 1 ≤ (e :: rest).length
      · refine ⟨(rest.take m).map .ok ++ [.error (.other "datastore: query failed")], rfl, ?_⟩
        show (if m + 1 ≤ (e :: rest).length then _ else _) = _
        rw [if_pos hle]
        rfl
      · refine ⟨rest.map .ok, rfl, ?_⟩
        show (if m + 1 ≤ (e :: rest).length then _ else _) = _
        rw [if_neg hle]
        rfl

/-- Without a matching Link record the redirect handler answers 404. -/
theorem GetLinkRedirect_of_find_none (env : Env) (r : Request) (store : Datastore)
    (hq : env.queryFailAt ≠ some 0)
    (hnone : store.find? (fun e => e.1.kind == "Link" && e.2.Slug == r.URLParams "slug") = none) :
    (GetLinkRedirect env r store).1 = httpError doneMessage StatusNotFound := by
  have hf := filter_of_find_none _ _ hnone
  rcases Run_first env { kind := "Link", slugEq := some (r.URLParams "slug") } store hq with
    ⟨_, hr⟩ | ⟨e, rest, rest1, he, _⟩
  · simp [GetLinkRedirect, hr]
  · have he1 : store.filter (fun e => e.1.kind == "Link" && e.2.Slug == r.URLParams "slug") =
        e :: rest := he
    rw [hf] at he1
    cases he1

/-- With a matching Link record the redirect handler redirects to the first
one. -/
theorem GetLinkRedirect_of_find_some (env : Env) (r : Request) (store : Datastore)
    (hq : env.queryFailAt ≠ some 0) (key : DKey) (link : Link)
    (hfind : store.find? (fun e => e.1.kind == "Link" && e.2.Slug == r.URLParams "slug") =
      some (key, link)) :
    (GetLinkRedirect env r store).1 =
      httpRedirect env r [("X-Key", env.encode key)] link.Target StatusFound := by
  obtain ⟨rest, hf⟩ := filter_of_find_some _ _ _ hfind
  rcases Run_first env { kind := "Link", slugEq := some (r.URLParams "slug") } store hq with
    ⟨he, _⟩ | ⟨e1, rest0, rest1, he, hr⟩
  · have he1 : store.filter (fun e => e.1.kind == "Link" && e.2.Slug == r.URLParams "slug") =
        [] := he
    rw [hf] at he1
    cases he1
  · have he1 : store.filter (fun e => e.1.kind == "Link" && e.2.Slug == r.URLParams "slug") =
        e1 :: rest0 := he
    rw [hf] at he1
    cases he1
    simp [GetLinkRedirect, hr]

/-- The status and the two headers of a redirect response. -/
theorem httpRedirect_fields (env : Env) (r : Request) (xkey url : String) :
    (httpRedirect env r [("X-Key", xkey)] url StatusFound).status = 302 ∧
    (httpRedirect env r [("X-Key", xkey)] url StatusFound).headerGet "Location" =
      some (env.redirectURL r.URLPath url) ∧
    (httpRedirect env r [("X-Key", xkey)] url StatusFound).headerGet "X-Key" = some xkey := by
  refine ⟨rfl, ?_, ?_⟩
  · have h : (("X-Key" : String) == "Location") = false := by decide
    simp [httpRedirect, Response.headerGet, List.find?_cons, h]
  · simp [httpRedirect, Response.headerGet, List.find?_cons]

/-- C8, as stated, fails, at two inputs. Alice creates a link with slug "home"
and no target, so the stored Target is empty; resolving "home" answers 302
with Location "/", the URL the redirect call makes of the empty target, not
the Target itself. And alice puts a payload with slug "docs" under the key
string "n1", a key of kind Note; the store then holds a record with slug
"docs", yet resolving "docs" answers 404, since the query reads kind Link. -/
theorem GetLinkRedirect_blank_target_counterexample :
    (AddLink (sampleEnv (some alice)) (formRequest "home" "") []).2 =
      [({ kind := "Link", stringID := "", intID := 1 },
        { Key := "", Author := "alice@example.com", Slug := "home", Target := "",
          Date := 1000 })] ∧
    (sampleEnv none).queryFailAt ≠ some 0 ∧
    (GetLinkRedirect (sampleEnv none) (sampleRequest "" "home" (.malformed "EOF"))
      (AddLink (sampleEnv (some alice)) (formRequest "home" "") []).2).1.status = 302 ∧
    (GetLinkRedirect (sampleEnv none) (sampleRequest "" "home" (.malformed "EOF"))
      (AddLink (sampleEnv (some alice)) (formRequest "home" "") []).2).1.headerGet "Location" =
        some "/" ∧
    (GetLinkRedirect (sampleEnv none) (sampleRequest "" "home" (.malformed "EOF"))
      (AddLink (sampleEnv (some alice)) (formRequest "home" "") []).2).1.headerGet "Location" ≠
        some "" ∧
    (PutLink (sampleEnv (some alice)) (sampleRequest "n1" "" (.object samplePatch)) []) =
      ({ status := 204, header := [], body := .empty },
       [({ kind := "Note", stringID := "", intID := 1 },
         { Key := "", Author := "", Slug := "docs", Target := "https://docs.example/",
           Date := 0 })]) ∧
    (GetLinkRedirect (sampleEnv none) (sampleRequest "" "docs" (.malformed "EOF"))
      (PutLink (sampleEnv (some alice)) (sampleRequest "n1" "" (.object samplePatch))
        []).2).1.status = 404 :=
  ⟨rfl, by decide, rfl, rfl, by decide, rfl, rfl⟩

/-- C8, amended: when the query does not fail, GetLinkRedirect answers 404 if no
stored record of kind Link has the requested slug, and otherwise answers 302
with Location the URL the redirect call computes from the request path and
the Target of the first stored record of kind Link with that slug, and X-Key
the encoding of the key of that same record, for every caller; the store is
left as it was. -/
theorem GetLinkRedirect_spec (env : Env) (r : Request) (store : Datastore)
    (hq : env.queryFailAt ≠ some 0) :
    ((∀ e ∈ store, e.1.kind = "Link" → e.2.Slug ≠ r.URLParams "slug") →
      (GetLinkRedirect env r store).1.status = 404) ∧
    ((∃ e ∈ store, e.1.kind = "Link" ∧ e.2.Slug = r.URLParams "slug") →
      ∃ key link,
        store.find? (fun e => e.1.kind == "Link" && e.2.Slug == r.URLParams "slug") =
          some (key, link) ∧
        (GetLinkRedirect env r store).1.status = 302 ∧
        (GetLinkRedirect env r store).1.headerGet "Location" =
          some (env.redirectURL r.URLPath link.Target) ∧
        (GetLinkRedirect env r store).1.headerGet "X-Key" = some (env.encode key)) ∧
    (GetLinkRedirect env r store).2 = store := by
  refine ⟨?_, ?_, ?_⟩
  · intro hno
    have hnone : store.find? (fun e => e.1.kind == "Link" && e.2.Slug == r.URLParams "slug") =
        none := by
      rw [List.find?_eq_none]
      intro e he
      simp only [Bool.and_eq_true, beq_iff_eq, not_and]
      exact hno e he
    rw [GetLinkRedirect_of_find_none env r store hq hnone]
    rfl
  · rintro ⟨e, he, hk, hs⟩
    have hsome : (store.find?
        (fun e => e.1.kind == "Link" && e.2.Slug == r.URLParams "slug")).isSome := by
      rw [List.find?_isSome]
      exact ⟨e, he, by simp [hk, hs]⟩
    obtain ⟨⟨key, link⟩, hfind⟩ := Option.isSome_iff_exists.1 hsome
    refine ⟨key, link, hfind, ?_⟩
    rw [GetLinkRedirect_of_find_some env r store hq key link hfind]
    exact httpRedirect_fields env r (env.encode key) link.Target
  · unfold GetLinkRedirect
    dsimp only
    split <;> rfl

theorem GetLinkRedirect_spec_witness :
    (sampleEnv none).queryFailAt ≠ some 0 ∧
    (((∀ e ∈ dupStore, e.1.kind = "Link" →
        e.2.Slug ≠ (sampleRequest "" "dup" (.malformed "EOF")).URLParams "slug") →
      (GetLinkRedirect (sampleEnv none) (sampleRequest "" "dup" (.malformed "EOF"))
        dupStore).1.status = 404) ∧
    ((∃ e ∈ dupStore, e.1.kind = "Link" ∧
        e.2.Slug = (sampleRequest "" "dup" (.malformed "EOF")).URLParams "slug") →
      ∃ key link,
        dupStore.find? (fun e => e.1.kind == "Link" &&
            e.2.Slug == (sampleRequest "" "dup" (.malformed "EOF")).URLParams "slug") =
          some (key, link) ∧
        (GetLinkRedirect (sampleEnv none) (sampleRequest "" "dup" (.malformed "EOF"))
          dupStore).1.status = 302 ∧
        (GetLinkRedirect (sampleEnv none) (sampleRequest "" "dup" (.malformed "EOF"))
          dupStore).1.headerGet "Location" =
            some ((sampleEnv none).redirectURL
              (sampleRequest "" "dup" (.malformed "EOF")).URLPath link.Target) ∧
        (GetLinkRedirect (sampleEnv none) (sampleRequest "" "dup" (.malformed "EOF"))
          dupStore).1.headerGet "X-Key" = some ((sampleEnv none).encode key)) ∧
    (GetLinkRedirect (sampleEnv none) (sampleRequest "" "dup" (.malformed "EOF")) dupStore).2 =
      dupStore) ∧
    (GetLinkRedirect (sampleEnv none) (sampleRequest "" "dup" (.malformed "EOF")) dupStore).1 =
      { status := 302
        header := [("X-Key", "k1"), ("Location", "https://first.example/")]
        body := .anchor "https://first.example/" "Found" } :=
  ⟨by decide,
   GetLinkRedirect_spec (sampleEnv none) (sampleRequest "" "dup" (.malformed "EOF")) dupStore
     (by decide),
   rfl⟩

/-! ## Listing -/

theorem loop_ok (env : Env) (ms : Datastore) (acc : List Link) :
    GetAllLinks.loop env (ms.map .ok) acc =
      .ok (acc ++ ms.map (fun e : DKey × Link => { e.2 with Key := env.encode e.1 })) := by
  induction ms generalizing acc with
  | nil => simp [GetAllLinks.loop]
  | cons e ms ih =>
    obtain ⟨key, link⟩ := e
    simp [GetAllLinks.loop, ih]

theorem loop_error (env : Env) (ms : Datastore) (err : DsError)
    (rest : datastore.Iterator) (acc : List Link) :
    GetAllLinks.loop env (ms.map .ok ++ .error err :: rest) acc = .error err := by
  induction ms generalizing acc with
  | nil => simp [GetAllLinks.loop]
  | cons e ms ih =>
    obtain ⟨key, link⟩ := e
    simp [GetAllLinks.loop, ih]

/-- C10: for an authorized caller, if the iteration over the Link records does
not fail, GetAllLinks answers 200 with one entry per stored Link record, in
store order, each the stored record with Key set to the encoding of its store
key (the empty list for a store without Link records); if the iteration fails
at some record, the answer is 500 with a plain message and no list. The store
is left as it was. -/
theorem GetAllLinks_spec (env : Env) (r : Request) (store : Datastore) (u : User)
    (hu : GetUser env = some u) :
    ((∀ n, env.queryFailAt = some n → (store.filter (fun e => e.1.kind == "Link")).length < n) →
      (GetAllLinks env r store).1 =
        { status := 200
          header := []
          body := .links ((store.filter (fun e => e.1.kind == "Link")).map
            (fun e : DKey × Link => { e.2 with Key := env.encode e.1 })) }) ∧
    ((∃ n, env.queryFailAt = some n ∧ n ≤ (store.filter (fun e => e.1.kind == "Link")).length) →
      (GetAllLinks env r store).1.status = 500 ∧
      ∃ msg, (GetAllLinks env r store).1.body = .text msg) ∧
    (GetAllLinks env r store).2 = store := by
  have hm : datastore.Query.matches { kind := "Link", slugEq := none } store =
      store.filter (fun e => e.1.kind == "Link") := by
    simp [datastore.Query.matches]
  refine ⟨?_, ?_, ?_⟩
  · intro hok
    have hrun : datastore.Run env { kind := "Link", slugEq := none } store =
        (store.filter (fun e => e.1.kind == "Link")).map .ok := by
      unfold datastore.Run
      rw [hm]
      cases hf : env.queryFailAt with
      | none => rfl
      | some n =>
        have := hok n hf
        show (if n ≤ _ then _ else _) = _
        rw [if_neg (by omega)]
    simp [GetAllLinks, hu, hrun, loop_ok, jsonEncode, StatusOK]
  · rintro ⟨n, hf, hle⟩
    have hrun : datastore.Run env { kind := "Link", slugEq := none } store =
        ((store.filter (fun e => e.1.kind == "Link")).take n).map .ok ++
          [.error (.other "datastore: query failed")] := by
      unfold datastore.Run
      rw [hm, hf]
      show (if n ≤ _ then _ else _) = _
      rw [if_pos hle]
    have hloop : GetAllLinks.loop env
        (datastore.Run env { kind := "Link", slugEq := none } store) [] =
        .error (.other "datastore: query failed") := by
      rw [hrun, loop_error]
    unfold GetAllLinks
    rw [hu]
    dsimp only
    rw [hloop]
    exact ⟨rfl, _, rfl⟩
  · unfold GetAllLinks
    rw [hu]
    dsimp only
    split <;> rfl

theorem GetAllLinks_spec_witness :
    GetUser (sampleEnv (some alice)) = some alice ∧
    (((∀ n, (sampleEnv (some alice)).queryFailAt = some n →
        (dupStore.filter (fun e => e.1.kind == "Link")).length < n) →
      (GetAllLinks (sampleEnv (some alice)) (sampleRequest "" "" (.malformed "EOF")) dupStore).1 =
        { status := 200
          header := []
          body := .links ((dupStore.filter (fun e => e.1.kind == "Link")).map
            (fun e : DKey × Link => { e.2 with Key := (sampleEnv (some alice)).encode e.1 })) }) ∧
    ((∃ n, (sampleEnv (some alice)).queryFailAt = some n ∧
        n ≤ (dupStore.filter (fun e => e.1.kind == "Link")).length) →
      (GetAllLinks (sampleEnv (some alice)) (sampleRequest "" "" (.malformed "EOF"))
        dupStore).1.status = 500 ∧
      ∃ msg, (GetAllLinks (sampleEnv (some alice)) (sampleRequest "" "" (.malformed "EOF"))
        dupStore).1.body = .text msg) ∧
    (GetAllLinks (sampleEnv (some alice)) (sampleRequest "" "" (.malformed "EOF")) dupStore).2 =
      dupStore) ∧
    (GetAllLinks (sampleEnv (some alice)) (sampleRequest "" "" (.malformed "EOF")) dupStore).1 =
      { status := 200
        header := []
        body := .links
          [{ Key := "k1", Author := "alice@example.com", Slug := "dup",
             Target := "https://first.example/", Date := 7 },
           { Key := "k2", Author := "alice@example.com", Slug := "dup",
             Target := "https://second.example/", Date := 8 }] } ∧
    (GetAllLinks (sampleEnv (some alice)) (sampleRequest "" "" (.malformed "EOF")) []).1 =
      { status := 200, header := [], body := .links [] } ∧
    (GetAllLinks { sampleEnv (some alice) with queryFailAt := some 1 }
        (sampleRequest "" "" (.malformed "EOF")) dupStore).1 =
      { status := 500, header := [], body := .text "datastore: query failed" } :=
  ⟨by decide,
   GetAllLinks_spec (sampleEnv (some alice)) (sampleRequest "" "" (.malformed "EOF")) dupStore
     alice (by decide),
   rfl, rfl, rfl⟩

/-! ## Writes -/

theorem lookup_upsert_self (store : Datastore) (key : DKey) (l : Link) :
    (store.upsert key l).lookup key = some l := by
  induction store with
  | nil => simp [Datastore.upsert, Datastore.lookup]
  | cons e rest ih =>
    obtain ⟨k, v⟩ := e
    by_cases hk : k = key
    · simp [Datastore.upsert, Datastore.lookup, hk]
    · have ih1 : Option.map Prod.snd (List.find? (fun e => e.1 == key) (Datastore.upsert rest key l)) =
          some l := ih
      simp [Datastore.upsert, Datastore.lookup, hk, List.find?_cons, ih1]

theorem lookup_upsert_other (store : Datastore) (key k1 : DKey) (l : Link) (h : k1 ≠ key) :
    (store.upsert key l).lookup k1 = store.lookup k1 := by
  induction store with
  | nil =>
    have : key ≠ k1 := fun e => h e.symm
    simp [Datastore.upsert, Datastore.lookup, List.find?_cons, this]
  | cons e rest ih =>
    obtain ⟨k, v⟩ := e
    have ih1 : Option.map Prod.snd (List.find? (fun e => e.1 == k1) (Datastore.upsert rest key l)) =
        Option.map Prod.snd (List.find? (fun e => e.1 == k1) rest) := ih
    by_cases hk : k = key
    · subst hk
      have hne : k ≠ k1 := fun e => h e.symm
      simp [Datastore.upsert, Datastore.lookup, List.find?_cons, hne]
    · by_cases hk1 : k = k1
      · subst hk1
        simp [Datastore.upsert, Datastore.lookup, List.find?_cons, hk]
      · simp [Datastore.upsert, Datastore.lookup, List.find?_cons, hk, hk1, ih1]

/-- C9, as stated, fails, at two inputs. The key string "k0" decodes (to an
incomplete key) and the write succeeds, yet afterwards no record is held at
that key: the payload was stored under a newly generated key. And under the
complete key of "k1" a payload whose date is 1999 nanoseconds is held with the
date 1000: the digits below the microsecond are gone. -/
theorem PutLink_incomplete_key_counterexample :
    GetUser (sampleEnv (some alice)) = some alice ∧
    jsonDecode (sampleRequest "k0" "" (.object samplePatch)).Body Link.zero =
      .ok { Key := "", Author := "", Slug := "docs", Target := "https://docs.example/",
            Date := 0 } ∧
    (sampleEnv (some alice)).decodeKey
        ((sampleRequest "k0" "" (.object samplePatch)).URLParams "key") =
      .ok (NewIncompleteKey "Link") ∧
    (PutLink (sampleEnv (some alice)) (sampleRequest "k0" "" (.object samplePatch))
      sampleStore).1.status = 204 ∧
    (PutLink (sampleEnv (some alice)) (sampleRequest "k0" "" (.object samplePatch))
      sampleStore).2.lookup (NewIncompleteKey "Link") = none ∧
    (PutLink (sampleEnv (some alice)) (sampleRequest "k0" "" (.object samplePatch))
      sampleStore).2.lookup { kind := "Link", stringID := "", intID := 2 } =
        some { Key := "", Author := "", Slug := "docs", Target := "https://docs.example/",
               Date := 0 } ∧
    sampleStore.lookup { kind := "Link", stringID := "", intID := 2 } = none ∧
    jsonDecode (sampleRequest "k1" "" (.object nanoPatch)).Body Link.zero =
      .ok { Key := "", Author := "bob@example.com", Slug := "docs",
            Target := "https://docs.example/", Date := 1999 } ∧
    (sampleEnv (some alice)).decodeKey
        ((sampleRequest "k1" "" (.object nanoPatch)).URLParams "key") =
      .ok { kind := "Link", stringID := "", intID := 1 } ∧
    (PutLink (sampleEnv (some alice)) (sampleRequest "k1" "" (.object nanoPatch))
      sampleStore).1.status = 204 ∧
    (PutLink (sampleEnv (some alice)) (sampleRequest "k1" "" (.object nanoPatch))
      sampleStore).2.lookup { kind := "Link", stringID := "", intID := 1 } =
        some { Key := "", Author := "bob@example.com", Slug := "docs",
               Target := "https://docs.example/", Date := 1000 } :=
  ⟨rfl, rfl, rfl, rfl, rfl, rfl, rfl, rfl, rfl, rfl, rfl⟩

/-- C9, amended: for an authorized caller, a JSON payload that decodes to P, a
key string that decodes to a complete key and a store in which the write
succeeds, PutLink answers 204 and afterwards the store holds at that key
exactly P with Key cleared and Date cut to whole microseconds (Author, Slug
and Target as in P), whether or not a record was there before, and the record
at every other key is as before. -/
theorem PutLink_spec (env : Env) (r : Request) (store : Datastore) (u : User) (P : Link)
    (key : DKey)
    (hu : GetUser env = some u)
    (hb : jsonDecode r.Body Link.zero = .ok P)
    (hk : env.decodeKey (r.URLParams "key") = .ok key)
    (hc : key.Incomplete = false)
    (hw : ∃ res, datastore.Put env store key { P with Key := "" } = .ok res) :
    (PutLink env r store).1.status = 204 ∧
    (PutLink env r store).2.lookup key =
      some { Key := "", Author := P.Author, Slug := P.Slug, Target := P.Target,
             Date := P.Date / 1000 * 1000 } ∧
    ∀ k1, k1 ≠ key → (PutLink env r store).2.lookup k1 = store.lookup k1 := by
  obtain ⟨res, hres⟩ := hw
  have hput : datastore.Put env store key { P with Key := "" } =
      .ok (key, store.upsert key (datastore.saveStruct { P with Key := "" })) := by
    unfold datastore.Put at hres ⊢
    by_cases hv : (!key.valid) = true
    · rw [if_pos hv] at hres
      cases hres
    · rw [if_neg hv] at hres ⊢
      cases hp : env.putErr with
      | some msg =>
        rw [hp] at hres
        cases hres
      | none => simp [hc]
  have hout : PutLink env r store =
      ({ status := StatusNoContent, header := [], body := .empty },
        store.upsert key (datastore.saveStruct { P with Key := "" })) := by
    unfold PutLink
    rw [hu]
    dsimp only
    rw [hb]
    dsimp only
    rw [hk]
    dsimp only
    rw [hput]
  rw [hout]
  refine ⟨rfl, ?_, ?_⟩
  · exact lookup_upsert_self _ _ _
  · intro k1 hk1
    exact lookup_upsert_other _ _ _ _ hk1

theorem PutLink_spec_witness :
    GetUser (sampleEnv (some alice)) = some alice ∧
    jsonDecode (sampleRequest "k1" "" (.object nanoPatch)).Body Link.zero =
      .ok { Key := "", Author := "bob@example.com", Slug := "docs",
            Target := "https://docs.example/", Date := 1999 } ∧
    (sampleEnv (some alice)).decodeKey
        ((sampleRequest "k1" "" (.object nanoPatch)).URLParams "key") =
      .ok { kind := "Link", stringID := "", intID := 1 } ∧
    DKey.Incomplete { kind := "Link", stringID := "", intID := 1 } = false ∧
    (∃ res, datastore.Put (sampleEnv (some alice)) sampleStore
        { kind := "Link", stringID := "", intID := 1 }
        { Key := "", Author := "bob@example.com", Slug := "docs",
          Target := "https://docs.example/", Date := 1999 } = .ok res) ∧
    ((PutLink (sampleEnv (some alice)) (sampleRequest "k1" "" (.object nanoPatch))
        sampleStore).1.status = 204 ∧
     (PutLink (sampleEnv (some alice)) (sampleRequest "k1" "" (.object nanoPatch))
        sampleStore).2.lookup { kind := "Link", stringID := "", intID := 1 } =
        some { Key := "", Author := "bob@example.com", Slug := "docs",
               Target := "https://docs.example/", Date := 1999 / 1000 * 1000 } ∧
     ∀ k1, k1 ≠ { kind := "Link", stringID := "", intID := 1 } →
       (PutLink (sampleEnv (some alice)) (sampleRequest "k1" "" (.object nanoPatch))
         sampleStore).2.lookup k1 = sampleStore.lookup k1) :=
  ⟨rfl, rfl, rfl, rfl, ⟨_, rfl⟩,
   PutLink_spec (sampleEnv (some alice)) (sampleRequest "k1" "" (.object nanoPatch))
     sampleStore alice
     { Key := "", Author := "bob@example.com", Slug := "docs",
       Target := "https://docs.example/", Date := 1999 }
     { kind := "Link", stringID := "", intID := 1 } rfl rfl rfl rfl ⟨_, rfl⟩⟩

theorem intID_lt_freshID (store : Datastore) :
    ∀ e ∈ store, e.1.intID < Datastore.freshID store := by
  induction store with
  | nil => intro e he; cases he
  | cons a rest ih =>
    intro e he
    have hstep : Datastore.freshID (a :: rest) =
        max a.1.intID (List.foldr max 0 (rest.map (fun e => e.1.intID))) + 1 := rfl
    have hrest : Datastore.freshID rest =
        List.foldr max 0 (rest.map (fun e => e.1.intID)) + 1 := rfl
    rw [hstep]
    rcases List.mem_cons.1 he with rfl | hmem
    · exact Nat.lt_succ_of_le (Nat.le_max_left _ _)
    · have h1 := ih e hmem
      rw [hrest] at h1
      exact Nat.lt_succ_of_le (Nat.le_trans (Nat.le_of_lt_succ h1) (Nat.le_max_right _ _))

theorem upsert_of_not_mem (store : Datastore) (key : DKey) (l : Link)
    (h : ∀ e ∈ store, e.1 ≠ key) : store.upsert key l = store ++ [(key, l)] := by
  induction store with
  | nil => rfl
  | cons a rest ih =>
    obtain ⟨k, v⟩ := a
    have hk : k ≠ key := h (k, v) (List.mem_cons_self _ _)
    have hrest : ∀ e ∈ rest, e.1 ≠ key := fun e he => h e (List.mem_cons_of_mem _ he)
    simp [Datastore.upsert, hk, ih hrest]

/-- A write under the incomplete Link key appends the saved record under a
newly generated complete key. -/
theorem Put_incomplete (env : Env) (store : Datastore) (l : Link) (hput : env.putErr = none) :
    datastore.Put env store (NewIncompleteKey "Link") l =
      .ok ({ kind := "Link", stringID := "", intID := store.freshID },
        store ++ [({ kind := "Link", stringID := "", intID := store.freshID },
          datastore.saveStruct l)]) := by
  have hfresh : ∀ e ∈ store,
      e.1 ≠ ({ kind := "Link", stringID := "", intID := store.freshID } : DKey) := by
    intro e he heq
    have := intID_lt_freshID store e he
    rw [heq] at this
    exact Nat.lt_irrefl _ this
  have hv : (NewIncompleteKey "Link").valid = true := by decide
  have hi : (NewIncompleteKey "Link").Incomplete = true := by decide
  unfold datastore.Put
  rw [hv, hput]
  simp only [Bool.not_true, Bool.false_eq_true, if_false, hi, if_true]
  rw [show ({ NewIncompleteKey "Link" with intID := store.freshID } : DKey) =
    { kind := "Link", stringID := "", intID := store.freshID } from rfl]
  rw [upsert_of_not_mem store _ _ hfresh]

/-! ## Creation -/

/-- What AddLink does for an authorized caller when the write succeeds. -/
theorem AddLink_ok (env : Env) (r : Request) (store : Datastore) (u : User) (l0 : Link)
    (hu : GetUser env = some u) (hp : AddLink.payload env r u = .ok l0)
    (hput : env.putErr = none) :
    AddLink env r store =
      (jsonEncode (.link
        { (if l0.Slug == "" then { l0 with Slug := env.token } else l0) with
          Key := env.encode (NewIncompleteKey "Link") }),
       store ++ [({ kind := "Link", stringID := "", intID := Datastore.freshID store },
         datastore.saveStruct (if l0.Slug == "" then { l0 with Slug := env.token } else l0))]) := by
  unfold AddLink
  rw [hu]
  dsimp only
  rw [hp]
  dsimp only
  rw [Put_incomplete env store _ hput]

/-- C5, as stated, fails, at two inputs. In a store that already holds a link
under the generated token, the link created with a blank slug gets that token
as slug, and resolving it redirects to the older link, not to the submitted
target. And in a store without such a link, a link created with a blank slug
and the target "docs/page" resolves with Location "/docs/page", the URL the
redirect call makes of that target, not the target itself. -/
theorem AddLink_blank_slug_collision_counterexample :
    GetUser (sampleEnv (some alice)) = some alice ∧
    (sampleEnv (some alice)).token ≠ "" ∧
    (AddLink (sampleEnv (some alice)) (formRequest "" "https://a.example/x") collideStore).1 =
      { status := 200
        header := []
        body := .link { Key := "k0", Author := "alice@example.com", Slug := "Xy7Qw2",
                        Target := "https://a.example/x", Date := 1000 } } ∧
    (GetLinkRedirect (sampleEnv none) (sampleRequest "" "Xy7Qw2" (.malformed "EOF"))
      (AddLink (sampleEnv (some alice)) (formRequest "" "https://a.example/x") collideStore).2).1 =
      { status := 302
        header := [("X-Key", "k1"), ("Location", "https://old.example/")]
        body := .anchor "https://old.example/" "Found" } ∧
    (AddLink (sampleEnv (some alice)) (formRequest "" "docs/page") sampleStore).1 =
      { status := 200
        header := []
        body := .link { Key := "k0", Author := "alice@example.com", Slug := "Xy7Qw2",
                        Target := "docs/page", Date := 1000 } } ∧
    (GetLinkRedirect (sampleEnv none) (sampleRequest "" "Xy7Qw2" (.malformed "EOF"))
      (AddLink (sampleEnv (some alice)) (formRequest "" "docs/page") sampleStore).2).1 =
      { status := 302
        header := [("X-Key", "k2"), ("Location", "/docs/page")]
        body := .anchor "/docs/page" "Found" } :=
  ⟨rfl, by decide, rfl, rfl, rfl, rfl⟩

/-- C5, amended: for an authorized caller, a request whose slug is blank and
whose target is t, a non-empty generated token, a successful write and a store
in which no Link record already has the generated token as slug, AddLink
returns a link whose Slug is the token, hence non-empty, and a following
GetLinkRedirect of that slug whose query does not fail answers 302 with
Location the URL the redirect call computes from the request path and t, and
X-Key the encoding of the key of the new record. -/
theorem AddLink_blank_slug_resolves (env env2 : Env) (r r2 : Request) (store : Datastore)
    (u : User) (l0 : Link)
    (hu : GetUser env = some u)
    (hp : AddLink.payload env r u = .ok l0)
    (hblank : l0.Slug = "")
    (htok : env.token ≠ "")
    (hput : env.putErr = none)
    (hfree : ∀ e ∈ store, e.1.kind = "Link" → e.2.Slug ≠ env.token)
    (hq : env2.queryFailAt ≠ some 0)
    (hs : r2.URLParams "slug" = env.token) :
    (∃ l, (AddLink env r store).1 = { status := 200, header := [], body := .link l } ∧
      l.Slug = env.token ∧ l.Slug ≠ "" ∧ l.Target = l0.Target) ∧
    (GetLinkRedirect env2 r2 (AddLink env r store).2).1.status = 302 ∧
    (GetLinkRedirect env2 r2 (AddLink env r store).2).1.headerGet "Location" =
      some (env2.redirectURL r2.URLPath l0.Target) ∧
    (GetLinkRedirect env2 r2 (AddLink env r store).2).1.headerGet "X-Key" =
      some (env2.encode { kind := "Link", stringID := "", intID := Datastore.freshID store }) := by
  have hadd := AddLink_ok env r store u l0 hu hp hput
  have hl : (if l0.Slug == "" then { l0 with Slug := env.token } else l0) =
      { l0 with Slug := env.token } := by
    simp [hblank]
  rw [hl] at hadd
  rw [hadd]
  refine ⟨⟨_, rfl, rfl, htok, rfl⟩, ?_⟩
  have hnone : store.find? (fun e => e.1.kind == "Link" && e.2.Slug == r2.URLParams "slug") =
      none := by
    rw [List.find?_eq_none]
    intro e he
    simp only [Bool.and_eq_true, beq_iff_eq, not_and]
    rw [hs]
    exact hfree e he
  have hfind : (store ++ [(({ kind := "Link", stringID := "", intID := Datastore.freshID store },
      datastore.saveStruct { l0 with Slug := env.token }) : DKey × Link)]).find?
        (fun e => e.1.kind == "Link" && e.2.Slug == r2.URLParams "slug") =
      some ({ kind := "Link", stringID := "", intID := Datastore.freshID store },
        datastore.saveStruct { l0 with Slug := env.token }) := by
    rw [List.find?_append, hnone]
    simp [List.find?_cons, hs, datastore.saveStruct]
  have hresp := GetLinkRedirect_of_find_some env2 r2
    (store ++ [({ kind := "Link", stringID := "", intID := Datastore.freshID store },
      datastore.saveStruct { l0 with Slug := env.token })]) hq
    { kind := "Link", stringID := "", intID := Datastore.freshID store }
    (datastore.saveStruct { l0 with Slug := env.token }) hfind
  have hfields := httpRedirect_fields env2 r2
    (env2.encode { kind := "Link", stringID := "", intID := Datastore.freshID store })
    l0.Target
  show (GetLinkRedirect env2 r2
      (store ++ [({ kind := "Link", stringID := "", intID := Datastore.freshID store },
        datastore.saveStruct { l0 with Slug := env.token })])).1.status = 302 ∧ _
  rw [hresp]
  exact hfields

theorem AddLink_blank_slug_resolves_witness :
    GetUser (sampleEnv (some alice)) = some alice ∧
    AddLink.payload (sampleEnv (some alice)) (formRequest "" "https://a.example/x") alice =
      .ok { Key := "", Author := "alice@example.com", Slug := "",
            Target := "https://a.example/x", Date := 1000 } ∧
    (sampleEnv (some alice)).token ≠ "" ∧
    (sampleEnv (some alice)).putErr = none ∧
    (∀ e ∈ sampleStore, e.1.kind = "Link" → e.2.Slug ≠ (sampleEnv (some alice)).token) ∧
    (sampleEnv none).queryFailAt ≠ some 0 ∧
    (sampleRequest "" "Xy7Qw2" (.malformed "EOF")).URLParams "slug" =
      (sampleEnv (some alice)).token ∧
    ((∃ l, (AddLink (sampleEnv (some alice)) (formRequest "" "https://a.example/x")
        sampleStore).1 = { status := 200, header := [], body := .link l } ∧
      l.Slug = (sampleEnv (some alice)).token ∧ l.Slug ≠ "" ∧
      l.Target = "https://a.example/x") ∧
    (GetLinkRedirect (sampleEnv none) (sampleRequest "" "Xy7Qw2" (.malformed "EOF"))
      (AddLink (sampleEnv (some alice)) (formRequest "" "https://a.example/x")
        sampleStore).2).1.status = 302 ∧
    (GetLinkRedirect (sampleEnv none) (sampleRequest "" "Xy7Qw2" (.malformed "EOF"))
      (AddLink (sampleEnv (some alice)) (formRequest "" "https://a.example/x")
        sampleStore).2).1.headerGet "Location" =
      some ((sampleEnv none).redirectURL
        (sampleRequest "" "Xy7Qw2" (.malformed "EOF")).URLPath "https://a.example/x") ∧
    (GetLinkRedirect (sampleEnv none) (sampleRequest "" "Xy7Qw2" (.malformed "EOF"))
      (AddLink (sampleEnv (some alice)) (formRequest "" "https://a.example/x")
        sampleStore).2).1.headerGet "X-Key" =
      some ((sampleEnv none).encode
        { kind := "Link", stringID := "", intID := Datastore.freshID sampleStore })) ∧
    (GetLinkRedirect (sampleEnv none) (sampleRequest "" "Xy7Qw2" (.malformed "EOF"))
      (AddLink (sampleEnv (some alice)) (formRequest "" "https://a.example/x")
        sampleStore).2).1 =
      { status := 302
        header := [("X-Key", "k2"), ("Location", "https://a.example/x")]
        body := .anchor "https://a.example/x" "Found" } :=
  ⟨rfl, rfl, by decide, rfl, by decide, by decide, rfl,
   AddLink_blank_slug_resolves (sampleEnv (some alice)) (sampleEnv none)
     (formRequest "" "https://a.example/x") (sampleRequest "" "Xy7Qw2" (.malformed "EOF"))
     sampleStore alice
     { Key := "", Author := "alice@example.com", Slug := "", Target := "https://a.example/x",
       Date := 1000 }
     rfl rfl rfl (by decide) rfl (by decide) (by decide) rfl,
   rfl⟩

/-- C2 at a failing input: alice, authorized, posts a JSON body naming another
author and the date "0001-01-01T00:00:05Z" while the clock reads 1000; the
returned link and the stored record carry the author and the date of the body,
not the email of alice and not the current time. -/
theorem AddLink_json_overrides_author_date :
    GetUser (sampleEnv (some alice)) = some alice ∧
    alice.Email = "alice@example.com" ∧
    (sampleEnv (some alice)).now = 1000 ∧
    AddLink (sampleEnv (some alice)) (jsonRequest spoofPatch) [] =
      ({ status := 200
         header := []
         body := .link { Key := "k0", Author := "ceo@example.com", Slug := "pay",
                         Target := "https://pay.example/", Date := 5000000000 } },
       [({ kind := "Link", stringID := "", intID := 1 },
         { Key := "", Author := "ceo@example.com", Slug := "pay",
           Target := "https://pay.example/", Date := 5000000000 })]) :=
  ⟨rfl, rfl, rfl, rfl⟩

/-- C4 at a failing input: alice posts slug "docs" with a target and the write
succeeds. The new record is stored under the generated key with integer id 2,
whose encoding is "k2"; the link AddLink returns carries "k0", the encoding of
the incomplete key it passed to the write; GetLink of "k0" answers 500, while
GetLink of "k2" answers 200 with the record. -/
theorem AddLink_returns_incomplete_key :
    GetUser (sampleEnv (some alice)) = some alice ∧
    AddLink (sampleEnv (some alice)) (formRequest "docs" "https://docs.example/") sampleStore =
      ({ status := 200
         header := []
         body := .link { Key := "k0", Author := "alice@example.com", Slug := "docs",
                         Target := "https://docs.example/", Date := 1000 } },
       sampleStore ++
         [({ kind := "Link", stringID := "", intID := 2 },
           { Key := "", Author := "alice@example.com", Slug := "docs",
             Target := "https://docs.example/", Date := 1000 })]) ∧
    (sampleEnv (some alice)).encode (NewIncompleteKey "Link") = "k0" ∧
    (sampleEnv (some alice)).encode { kind := "Link", stringID := "", intID := 2 } = "k2" ∧
    (sampleEnv (some alice)).decodeKey "k0" = .ok (NewIncompleteKey "Link") ∧
    (GetLink (sampleEnv (some alice)) (sampleRequest "k0" "" (.malformed "EOF"))
      (AddLink (sampleEnv (some alice)) (formRequest "docs" "https://docs.example/")
        sampleStore).2).1.status = 500 ∧
    (GetLink (sampleEnv (some alice)) (sampleRequest "k2" "" (.malformed "EOF"))
      (AddLink (sampleEnv (some alice)) (formRequest "docs" "https://docs.example/")
        sampleStore).2).1 =
      { status := 200
        header := []
        body := .link { Key := "k2", Author := "alice@example.com", Slug := "docs",
                        Target := "https://docs.example/", Date := 1000 } } :=
  ⟨rfl, rfl, rfl, rfl, rfl, rfl, rfl⟩

/-- C6 at a failing input: from the empty store, one AddLink by alice with a
JSON body naming the key "abc" leaves a record whose Key field is "abc". -/
theorem AddLink_json_stores_key :
    GetUser (sampleEnv (some alice)) = some alice ∧
    (∀ e ∈ ([] : Datastore), e.2.Key = "") ∧
    (AddLink (sampleEnv (some alice)) (jsonRequest keyedPatch) []).2 =
      [({ kind := "Link", stringID := "", intID := 1 },
        { Key := "abc", Author := "alice@example.com", Slug := "pay",
          Target := "https://pay.example/", Date := 1000 })] ∧
    ¬ (∀ e ∈ (AddLink (sampleEnv (some alice)) (jsonRequest keyedPatch) []).2, e.2.Key = "") := by
  refine ⟨rfl, by simp, rfl, ?_⟩
  intro h
  have h1 := h _ (List.mem_singleton_self
    (({ kind := "Link", stringID := "", intID := 1 },
      { Key := "abc", Author := "alice@example.com", Slug := "pay",
        Target := "https://pay.example/", Date := 1000 }) : DKey × Link))
  exact absurd h1 (by decide)

end Shortlink
